import Mathlib

/-!
Verification of the identity core of the Glyde backend.

This file shallowly embeds the identity/session core of the repository:

* the JWT token manager (`config/jwt.ts`, class `JWTManager`),
* the account document and its schema-level validation, instance methods
  `comparePassword`, `generateOTP`, `isOTPValid` and the `toJSON` transform
  (`models/User.model.ts`),
* the signup and email-verification flows (`controllers/auth.controller.ts`,
  class `AuthController`).

Modelling conventions:

* Machine time is an abstract `Nat` supplied to each operation (`Date.now()`
  at the call site); OTP expiry timestamps are in the same unit as the `now`
  handed to the OTP functions, and token `iat`/`exp` are in the same unit as
  the `now` handed to the token functions.  The two families are never
  compared with each other, mirroring the source (milliseconds vs seconds).
* `Math.random()` in `generateOTP` is modelled by its discretisation
  `rand : Fin 900000`, the value `⌊Math.random() * 900000⌋`.
* The `bcryptjs` compare function and the e-mail delivery collaborator are
  external libraries; they enter as oracle parameters
  (`bcryptCompare : String → String → Bool`, `emailSent welcomeSent : Bool`,
  `hash : String → String`).
* A JWT is modelled symbolically: either a well-formed token signed with some
  secret and carrying its claims, or an unparsable string.  `jwt.sign` /
  `jwt.verify` of the `jsonwebtoken` library are modelled with the library's
  check order (parse, signature, `exp`, audience, issuer) and its error
  classes (`TokenExpiredError` is tested before the more general
  `JsonWebTokenError`, as in the source `catch` blocks).
* The document store is a `List UserDoc`; `findOne` is `List.find?` and a
  document save replaces the entry with the same `_id`.  Mongoose runs the
  schema validators on `save()`; a validation failure rejects the save, which
  the controllers turn into their generic catch-all error response.
* Ride-sharing payload fields of the schema (`location`, `ratings`,
  `rideHistory`) are never touched by the identity flows and are elided from
  the record.
-/

namespace Glyde

/-- JS falsiness of an optional string: `undefined` or the empty string. -/
def strFalsy : Option String → Bool
  | none => true
  | some s => s == ""

/-! ### JWT model (`config/jwt.ts`) -/

/-- The claim set of a token: the signed payload `{userId, role}` plus the
fields added by `jwt.sign` (`iat`, `exp`) and its options (`issuer`,
`audience`). -/
structure JWTPayload where
  userId : String
  role : Option String
  iat : Nat
  exp : Nat
  iss : String
  aud : String
deriving DecidableEq

/-- A token string, viewed symbolically: a well-formed JWT signed with a
secret, or a string that does not parse as a JWT at all. -/
inductive Token where
  | signed (payload : JWTPayload) (secret : String)
  | malformed (raw : String)
deriving DecidableEq

/-- Errors raised by `jwt.verify` of the `jsonwebtoken` library.
`TokenExpiredError` is a subclass of `JsonWebTokenError`; the manager's
`catch` blocks test `instanceof TokenExpiredError` first, so the two are kept
apart here.  A malformed token raises `JsonWebTokenError("jwt malformed")`. -/
inductive JwtLibError where
  | tokenExpiredError
  | jsonWebTokenError (msg : String)
deriving DecidableEq

/-- `jwt.sign(payload, secret, {expiresIn, issuer, audience})` at time `now`. -/
def jwtSign (userId : String) (role : Option String) (secret : String)
    (expiresIn : Nat) (issuer audience : String) (now : Nat) : Token :=
  .signed
    { userId := userId, role := role, iat := now, exp := now + expiresIn,
      iss := issuer, aud := audience } secret

/-- `jwt.verify(token, secret, {issuer, audience})` at time `now`, with the
library's check order: parse, signature, `exp` (expired iff `now ≥ exp`),
audience, issuer. -/
def jwtVerify (token : Token) (secret issuer audience : String) (now : Nat) :
    Except JwtLibError JWTPayload :=
  match token with
  | .malformed _ => .error (.jsonWebTokenError "jwt malformed")
  | .signed p s =>
    if s ≠ secret then .error (.jsonWebTokenError "invalid signature")
    else if p.exp ≤ now then .error .tokenExpiredError
    else if p.aud ≠ audience then .error (.jsonWebTokenError "jwt audience invalid")
    else if p.iss ≠ issuer then .error (.jsonWebTokenError "jwt issuer invalid")
    else .ok p

/-- The `JWTManager` configuration: the two secrets and the two expiry
durations, loaded once from the environment in the constructor. -/
structure JWTConfig where
  accessTokenSecret : String
  refreshTokenSecret : String
  accessTokenExpiry : Nat
  refreshTokenExpiry : Nat
deriving DecidableEq

/-- `TokenPair` of `config/jwt.ts`. -/
structure TokenPair where
  accessToken : Token
  refreshToken : Token
deriving DecidableEq

/-- `JWTManager.generateAccessToken`: signs `{userId, role}` with the access
secret, access expiry, issuer `glyde-backend`, audience `glyde-frontend`. -/
def generateAccessToken (cfg : JWTConfig) (now : Nat)
    (userId : String) (role : Option String) : Token :=
  jwtSign userId role cfg.accessTokenSecret cfg.accessTokenExpiry
    "glyde-backend" "glyde-frontend" now

/-- `JWTManager.generateRefreshToken`: same, with the refresh secret and
refresh expiry. -/
def generateRefreshToken (cfg : JWTConfig) (now : Nat)
    (userId : String) (role : Option String) : Token :=
  jwtSign userId role cfg.refreshTokenSecret cfg.refreshTokenExpiry
    "glyde-backend" "glyde-frontend" now

/-- `JWTManager.generateTokenPair`. -/
def generateTokenPair (cfg : JWTConfig) (now : Nat)
    (userId : String) (role : Option String) : TokenPair :=
  { accessToken := generateAccessToken cfg now userId role,
    refreshToken := generateRefreshToken cfg now userId role }

/-- `JWTManager.verifyAccessToken`: `jwt.verify` with the access secret and
the fixed issuer/audience, with the `catch` block mapping
`TokenExpiredError` to `"Access token has expired"` and every other
`JsonWebTokenError` (malformed tokens included) to `"Invalid access token"`. -/
def verifyAccessToken (cfg : JWTConfig) (now : Nat) (token : Token) :
    Except String JWTPayload :=
  match jwtVerify token cfg.accessTokenSecret "glyde-backend" "glyde-frontend" now with
  | .ok p => .ok p
  | .error .tokenExpiredError => .error "Access token has expired"
  | .error (.jsonWebTokenError _) => .error "Invalid access token"

/-- `JWTManager.verifyRefreshToken`: as `verifyAccessToken` with the refresh
secret and the refresh error messages. -/
def verifyRefreshToken (cfg : JWTConfig) (now : Nat) (token : Token) :
    Except String JWTPayload :=
  match jwtVerify token cfg.refreshTokenSecret "glyde-backend" "glyde-frontend" now with
  | .ok p => .ok p
  | .error .tokenExpiredError => .error "Refresh token has expired"
  | .error (.jsonWebTokenError _) => .error "Invalid refresh token"

/-- `JWTManager.refreshAccessToken`: verifies the refresh token (the `catch`
block rethrows the verification error unchanged), then issues a new access
token from `newPayload = {userId := decoded.userId}`, to which the role is
added only behind the source's truthiness guard `if (decoded.role)` — an
absent or empty-string role is not copied into the new payload. -/
def refreshAccessToken (cfg : JWTConfig) (now : Nat) (token : Token) :
    Except String Token :=
  match verifyRefreshToken cfg now token with
  | .error e => .error e
  | .ok decoded =>
    .ok (generateAccessToken cfg now decoded.userId
      (if strFalsy decoded.role then none else decoded.role))

/-! ### Account documents (`models/User.model.ts`) -/

/-- The embedded `otp` challenge `{code, expiresAt}`.  Each nested path may be
unset on a document; a set `expiresAt` is a `Date` object and hence truthy,
an unset one is `undefined`. -/
structure OtpChallenge where
  code : String
  expiresAt : Option Nat
deriving DecidableEq

/-- An account document.  `status`, `signupMethod` and `role` are plain
strings as in the store; the schema's `enum` constraints are checked by
`validateUser` at save time, not by the type.  Ride-sharing fields
(`location`, `ratings`, `rideHistory`) are elided (never touched by the
identity flows). -/
structure UserDoc where
  id : String
  firstName : String
  lastName : String
  email : Option String
  password : Option String
  phone : Option String
  googleId : Option String
  signupMethod : String
  role : String
  otp : Option OtpChallenge
  status : String
  blockedAt : Option Nat
  image : String
  averageRating : Nat
  totalRides : Nat
  createdAt : Nat
  updatedAt : Nat
deriving DecidableEq

/-- The schema's `status` enum (`User.model.ts` lines 205-218). -/
def statusEnum : List String :=
  ["NEED_PHONE_VERIFICATION", "TEMPORARY_BLOCKED", "BLOCKED", "ACTIVE"]

/-- The schema's `signupMethod` enum. -/
def signupMethodEnum : List String := ["EMAIL", "PHONE", "GOOGLE"]

/-- The schema's `role` enum. -/
def roleEnum : List String := ["USER", "ADMIN", "DEVELOPER"]

/-- JS `String.prototype.trim`, implemented structurally on the character
list so that concrete instances reduce in the kernel. -/
def jsTrim (s : String) : String :=
  ⟨((s.data.dropWhile Char.isWhitespace).reverse.dropWhile Char.isWhitespace).reverse⟩

/-- JS `String.prototype.toLowerCase` (ASCII, as used for e-mail
addresses here). -/
def jsToLower (s : String) : String :=
  ⟨s.data.map Char.toLower⟩

/-- The e-mail validator regex `^[^\s@]+@[^\s@]+\.[^\s@]+$`: exactly one `@`,
a nonempty whitespace-free part before it, and after it a nonempty
whitespace-and-`@`-free part containing a dot that is neither its first nor
its last character. -/
def isEmailFormat (s : String) : Bool :=
  let cs := s.data
  let lpart := cs.takeWhile (fun c => c != '@')
  match cs.dropWhile (fun c => c != '@') with
  | [] => false
  | _ :: dpart =>
    !lpart.isEmpty && lpart.all (fun c => !c.isWhitespace) &&
    !dpart.isEmpty &&
    dpart.all (fun c => !c.isWhitespace && c != '@') &&
    (List.range dpart.length).any
      (fun i => dpart.get? i == some '.' && decide (0 < i) && decide (i + 1 < dpart.length))

/-- The phone validator regex `^\+?[1-9]\d{1,14}$`. -/
def isPhoneFormat (s : String) : Bool :=
  let t := match s.data with
           | '+' :: rest => rest
           | l => l
  match t with
  | c :: rest =>
    decide ('1' ≤ c) && decide (c ≤ '9') && rest.all Char.isDigit &&
    decide (1 ≤ rest.length) && decide (rest.length ≤ 14)
  | [] => false

/-- Document validation as mongoose runs it on `save()`: first the
`pre('validate')` hook (identifier required for the chosen signup method),
then the path validators — which mongoose only runs on paths that are set —
and the `enum`, `maxlength`, `minlength`, `min`/`max` constraints of the
schema.  The password path combines `minlength: 6` with the custom
"required for email signup" validator. -/
def validateUser (u : UserDoc) : Bool :=
  !(u.signupMethod == "EMAIL" && strFalsy u.email) &&
  !(u.signupMethod == "PHONE" && strFalsy u.phone) &&
  !(u.signupMethod == "GOOGLE" && strFalsy u.email) &&
  decide (u.firstName.length ≤ 50) &&
  decide (u.lastName.length ≤ 50) &&
  (match u.email with
   | none => true
   | some v => v == "" || isEmailFormat v) &&
  (match u.password with
   | none => true
   | some v => decide (6 ≤ v.length) && !(u.signupMethod == "EMAIL" && v == "")) &&
  (match u.phone with
   | none => true
   | some v => v == "" || isPhoneFormat v) &&
  signupMethodEnum.contains u.signupMethod &&
  roleEnum.contains u.role &&
  statusEnum.contains u.status &&
  decide (u.averageRating ≤ 5)

/-- Instance method `comparePassword`: `false` when `this.password` is falsy
(absent or empty), otherwise the result of `bcrypt.compare` on the candidate
and the stored hash.  The bcrypt library is the oracle `bcryptCompare`. -/
def comparePassword (bcryptCompare : String → String → Bool) (u : UserDoc)
    (candidatePassword : String) : Bool :=
  match u.password with
  | none => false
  | some p => if p == "" then false else bcryptCompare candidatePassword p

/-- Instance method `generateOTP`:
`code = Math.floor(100000 + Math.random() * 900000).toString()` and
`expiresAt = Date.now() + 10 * 60 * 1000`.  `rand` is the discretised random
draw `⌊Math.random() * 900000⌋`. -/
def generateOTP (now : Nat) (rand : Fin 900000) : OtpChallenge :=
  { code := Nat.repr (100000 + rand.val),
    expiresAt := some (now + 10 * 60 * 1000) }

/-- Instance method `isOTPValid`: `false` when `this.otp`, `this.otp.code` or
`this.otp.expiresAt` is falsy, `false` when `expiresAt < now`, else exact
string comparison of the stored and submitted codes. -/
def isOTPValid (u : UserDoc) (code : String) (now : Nat) : Bool :=
  match u.otp with
  | none => false
  | some otp =>
    if otp.code == "" then false
    else
      match otp.expiresAt with
      | none => false
      | some e => if e < now then false else otp.code == code

/-- The serialized form of an account exposed to callers: every schema field
except `password` and `otp`, which the `toJSON` transform deletes. -/
structure PublicUser where
  id : String
  firstName : String
  lastName : String
  email : Option String
  phone : Option String
  googleId : Option String
  signupMethod : String
  role : String
  status : String
  blockedAt : Option Nat
  image : String
  averageRating : Nat
  totalRides : Nat
  createdAt : Nat
  updatedAt : Nat
deriving DecidableEq

/-- The `toJSON.transform` of the schema: serialize the document and delete
`password` and `otp` from the result. -/
def toJSON (u : UserDoc) : PublicUser :=
  { id := u.id, firstName := u.firstName, lastName := u.lastName,
    email := u.email, phone := u.phone, googleId := u.googleId,
    signupMethod := u.signupMethod, role := u.role, status := u.status,
    blockedAt := u.blockedAt, image := u.image,
    averageRating := u.averageRating, totalRides := u.totalRides,
    createdAt := u.createdAt, updatedAt := u.updatedAt }

/-! ### The auth controller (`controllers/auth.controller.ts`) -/

/-- A controller response, identified by the data the controller hands to
`ResponseUtil`: the error message, or the success payload and message. -/
inductive AuthResponse where
  | err (message : String)
  | okSignup (email : Option String) (message : String)
  | okVerifyEmail (user : PublicUser) (accessToken refreshToken : Token)
      (message : String)
deriving DecidableEq

/-- The request body consumed by `AuthController.signup`. -/
structure SignupRequest where
  firstName : String
  lastName : String
  email : Option String
  phone : Option String
  password : Option String
deriving DecidableEq

/-- `User.findOne({$or: [{email}, {phone}]})`: the duplicate lookup of the
signup flow.  A clause whose value is absent from the request matches
nothing. -/
def findDuplicate (store : List UserDoc) (email phone : Option String) :
    Option UserDoc :=
  store.find? (fun u =>
    (email.isSome && u.email == email) || (phone.isSome && u.phone == phone))

/-- `new User({...})` as built by `AuthController.signup`: schema setters
(`trim`, `lowercase`) and schema defaults applied, `signupMethod: 'EMAIL'`
and `status: 'NEED_EMAIL_VERIFICATION'` set explicitly by the controller. -/
def mkSignupUser (id : String) (now : Nat) (req : SignupRequest) : UserDoc :=
  { id := id,
    firstName := jsTrim req.firstName,
    lastName := jsTrim req.lastName,
    email := req.email.map (fun e => jsToLower (jsTrim e)),
    password := req.password,
    phone := req.phone.map jsTrim,
    googleId := none,
    signupMethod := "EMAIL",
    role := "USER",
    otp := none,
    status := "NEED_EMAIL_VERIFICATION",
    blockedAt := none,
    image := "",
    averageRating := 0,
    totalRides := 0,
    createdAt := now,
    updatedAt := now }

/-- The `pre('save')` password-hashing hook: skipped when the password is not
modified or falsy; a new document's provided password counts as modified. -/
def hashPasswordHook (hash : String → String) (password : Option String) :
    Option String :=
  match password with
  | none => none
  | some p => if p == "" then some p else some (hash p)

/-- Replacing a saved document in the store by `_id`. -/
def saveUser (store : List UserDoc) (u : UserDoc) : List UserDoc :=
  store.map (fun v => if v.id == u.id then u else v)

/-- `AuthController.signup`: duplicate lookup, document construction,
`generateOTP`, `save()` (validation, then the hashing hook, then insert; a
validation rejection lands in the `catch` block as `'Signup failed'`), then
the e-mail delivery collaborator (`'Email verification failed'` when it
reports failure), else the success response. -/
def signup (hash : String → String) (emailSent : Bool) (now : Nat)
    (rand : Fin 900000) (id : String) (store : List UserDoc)
    (req : SignupRequest) : AuthResponse × List UserDoc :=
  match findDuplicate store req.email req.phone with
  | some _ => (.err "User already exists", store)
  | none =>
    let user := { mkSignupUser id now req with otp := some (generateOTP now rand) }
    if !validateUser user then (.err "Signup failed", store)
    else
      let saved := { user with password := hashPasswordHook hash user.password }
      let store2 := store ++ [saved]
      if !emailSent then (.err "Email verification failed", store2)
      else (.okSignup req.email "OTP sent to email", store2)

/-- The pending-account lookup of the verification flow:
`User.findOne({email, status: 'NEED_EMAIL_VERIFICATION'})`. -/
def findPendingByEmail (store : List UserDoc) (email : String) : Option UserDoc :=
  store.find? (fun u =>
    u.email == some email && u.status == "NEED_EMAIL_VERIFICATION")

/-- `AuthController.verifyEmail`: pending-account lookup
(`'User not found'` on a miss), `isOTPValid` (`'Invalid OTP'` on failure,
nothing written), then `user.status = 'ACTIVE'` and `save()` (a validation
rejection lands in the `catch` block as `'Email verification failed'`), the
welcome-mail collaborator (`'Welcome email failed'`), and finally
`generateTokens({userId, role})` and the success response carrying the
serialized user and the token pair.  The stored `otp` is never written. -/
def verifyEmail (cfg : JWTConfig) (welcomeSent : Bool) (now : Nat)
    (store : List UserDoc) (email otp : String) :
    AuthResponse × List UserDoc :=
  match findPendingByEmail store email with
  | none => (.err "User not found", store)
  | some user =>
    if !isOTPValid user otp now then (.err "Invalid OTP", store)
    else
      let active := { user with status := "ACTIVE" }
      if !validateUser active then (.err "Email verification failed", store)
      else
        let store2 := saveUser store active
        if !welcomeSent then (.err "Welcome email failed", store2)
        else
          let pair := generateTokenPair cfg now active.id (some active.role)
          (.okVerifyEmail (toJSON active) pair.accessToken pair.refreshToken
            "Email verification successful! Welcome to Glyde", store2)

/-! ### Concrete sample inputs used by witnesses and counterexamples -/

/-- A concrete signing configuration (the operational defaults: 7-day access
expiry, 30-day refresh expiry, in seconds). -/
def cfg0 : JWTConfig :=
  { accessTokenSecret := "access-secret", refreshTokenSecret := "refresh-secret",
    accessTokenExpiry := 604800, refreshTokenExpiry := 2592000 }

/-- A concrete account pending e-mail verification with an open OTP
challenge `123456` expiring at time 1000. -/
def u0 : UserDoc :=
  { id := "u1", firstName := "A", lastName := "B", email := some "a@x.com",
    password := some "hashedpw", phone := none, googleId := none,
    signupMethod := "EMAIL", role := "USER",
    otp := some { code := "123456", expiresAt := some 1000 },
    status := "NEED_EMAIL_VERIFICATION", blockedAt := none, image := "",
    averageRating := 0, totalRides := 0, createdAt := 0, updatedAt := 0 }

/-- The spec's concrete signup scenario: e-mail `a@x.com` with a password. -/
def req0 : SignupRequest :=
  { firstName := "A", lastName := "B", email := some "a@x.com", phone := none,
    password := some "secret1" }

/-- A syntactically well-formed token signed with the wrong secret (a
tampered token). -/
def tampered0 : Token :=
  .signed { userId := "u1", role := some "USER", iat := 0, exp := 1000000,
            iss := "glyde-backend", aud := "glyde-frontend" } "wrong-secret"

/-- A refresh token signed with `cfg0`'s refresh secret that expired at
time 100. -/
def expiredRefresh0 : Token :=
  .signed { userId := "u1", role := some "USER", iat := 0, exp := 100,
            iss := "glyde-backend", aud := "glyde-frontend" } "refresh-secret"

/-- An access token signed with `cfg0`'s access secret expiring at
time 1000000. -/
def expiredAccess0 : Token :=
  .signed { userId := "u1", role := some "USER", iat := 0, exp := 1000000,
            iss := "glyde-backend", aud := "glyde-frontend" } "access-secret"

/-- An account whose open challenge has an empty stored code. -/
def uEmptyCode : UserDoc :=
  { u0 with otp := some { code := "", expiresAt := some 1000 } }

/-! ## Theorems -/

/-- Claim C1 (code bug witnessed). An EMAIL-method signup whose e-mail and
phone match no existing account never creates an account at all: the
controller sets `status: 'NEED_EMAIL_VERIFICATION'`, but the schema's status
enum (`NEED_PHONE_VERIFICATION`, `TEMPORARY_BLOCKED`, `BLOCKED`, `ACTIVE`)
does not contain that value, so `save()` rejects the document, the `catch`
block answers `'Signup failed'`, and the store is unchanged — contradicting
the claim that the account is created in the pending-email-verification
state. -/
theorem signup_rejected_by_status_enum (hash : String → String) (emailSent : Bool)
    (now : Nat) (rand : Fin 900000) (id : String) (store : List UserDoc)
    (req : SignupRequest)
    (hdup : findDuplicate store req.email req.phone = none) :
    signup hash emailSent now rand id store req = (.err "Signup failed", store) := by
  have hval : validateUser
      { mkSignupUser id now req with otp := some (generateOTP now rand) } = false := by
    by_contra hne
    rw [Bool.not_eq_false] at hne
    simp only [validateUser, Bool.and_eq_true] at hne
    have hc := hne.1.2
    rw [show UserDoc.status
        { mkSignupUser id now req with otp := some (generateOTP now rand) }
          = "NEED_EMAIL_VERIFICATION" from rfl] at hc
    exact absurd hc (by decide)
  simp [signup, hdup, hval]

/-- Claim C1, witness: the spec's concrete scenario — signup with e-mail
`a@x.com` against an empty store — answers `'Signup failed'` and persists
nothing. -/
theorem signup_rejected_by_status_enum_witness :
    signup (fun s => s) true 0 ⟨0, by decide⟩ "u1" [] req0
      = (.err "Signup failed", []) :=
  signup_rejected_by_status_enum (fun s => s) true 0 ⟨0, by decide⟩ "u1" [] req0 rfl

/-- Claim C2, counterexample. On the pending account `u0` a first verify
call with the correct, unexpired code succeeds, yet the stored OTP challenge
is NOT cleared (the updated document still carries it), and a second verify
call with the same code answers `'User not found'` — the account-not-found
error, not the OTP-invalid error — because the account left the pending
state. -/
theorem verifyEmail_success_replay_counterexample :
    (verifyEmail cfg0 true 500 [u0] "a@x.com" "123456").1
      = .okVerifyEmail (toJSON { u0 with status := "ACTIVE" })
          (generateAccessToken cfg0 500 "u1" (some "USER"))
          (generateRefreshToken cfg0 500 "u1" (some "USER"))
          "Email verification successful! Welcome to Glyde" ∧
    (verifyEmail cfg0 true 500 [u0] "a@x.com" "123456").2.map UserDoc.otp
      = [some { code := "123456", expiresAt := some 1000 }] ∧
    (verifyEmail cfg0 true 500
        ((verifyEmail cfg0 true 500 [u0] "a@x.com" "123456").2) "a@x.com" "123456").1
      = .err "User not found" ∧
    ("User not found" : String) ≠ "Invalid OTP" := by
  refine ⟨rfl, by decide, rfl, by decide⟩

/-- Claim C2 (amended). A successful verify call moves the unique pending
account with that e-mail to ACTIVE and retains (does not clear) its stored
OTP challenge; every later verify call for that e-mail — in particular a
replay of the same code — fails with the `'User not found'` error because
the pending-state lookup no longer matches, and leaves the store
unchanged. -/
theorem verifyEmail_success_activates_then_replay_not_found (cfg : JWTConfig)
    (now : Nat) (store : List UserDoc) (email code : String) (u : UserDoc)
    (hfind : findPendingByEmail store email = some u)
    (hotp : isOTPValid u code now = true)
    (hvalid : validateUser { u with status := "ACTIVE" } = true)
    (huniq : ∀ v ∈ store, v.email = some email → v.id = u.id) :
    verifyEmail cfg true now store email code =
      (.okVerifyEmail (toJSON { u with status := "ACTIVE" })
        (generateAccessToken cfg now u.id (some u.role))
        (generateRefreshToken cfg now u.id (some u.role))
        "Email verification successful! Welcome to Glyde",
       saveUser store { u with status := "ACTIVE" }) ∧
    ({ u with status := "ACTIVE" } : UserDoc).otp = u.otp ∧
    (∀ cfg2 welcomeSent2 now2 code2,
      verifyEmail cfg2 welcomeSent2 now2 (saveUser store { u with status := "ACTIVE" })
          email code2
        = (.err "User not found", saveUser store { u with status := "ACTIVE" })) := by
  have hnone : findPendingByEmail (saveUser store { u with status := "ACTIVE" }) email
      = none := by
    unfold findPendingByEmail saveUser
    rw [List.find?_eq_none]
    intro v hv
    rcases List.mem_map.mp hv with ⟨w, hw, rfl⟩
    by_cases hid : w.id == ({ u with status := "ACTIVE" } : UserDoc).id
    · simp only [hid, if_pos]
      simp
    · simp only [hid]
      rw [if_neg (by simp_all)]
      cases hmail : w.email == some email
      · simp [hmail]
      · have : w.id = u.id := huniq w hw (by simpa using hmail)
        simp only [Bool.not_eq_true] at hid
        rw [show ({ u with status := "ACTIVE" } : UserDoc).id = u.id from rfl] at hid
        rw [this] at hid
        simp at hid
  refine ⟨?_, rfl, ?_⟩
  · simp [verifyEmail, hfind, hotp, hvalid, generateTokenPair]
  · intro cfg2 welcomeSent2 now2 code2
    simp [verifyEmail, hnone]

/-- Claim C2 (amended), witness: replaying the code `123456` against the
store after the successful verification of `u0` answers `'User not
found'`. -/
theorem verifyEmail_success_activates_then_replay_not_found_witness :
    verifyEmail cfg0 true 700 (saveUser [u0] { u0 with status := "ACTIVE" })
        "a@x.com" "123456"
      = (.err "User not found", saveUser [u0] { u0 with status := "ACTIVE" }) :=
  (verifyEmail_success_activates_then_replay_not_found cfg0 500 [u0] "a@x.com" "123456" u0
    (by decide) (by decide) (by decide) (by decide)).2.2 cfg0 true 700 "123456"

/-- Claim C3, counterexample. A token that cannot be parsed at all and a
well-formed token signed with the wrong secret produce the SAME error
(`'Invalid access token'` resp. `'Invalid refresh token'`): the malformed
case is not distinguishable from the tampered case, refuting the three-way
distinction.  Moreover the expired kind is raised already at `now = exp`,
not only when `now > exp`. -/
theorem verifyToken_malformed_indistinguishable :
    verifyAccessToken cfg0 5 (.malformed "garbage") = .error "Invalid access token" ∧
    verifyAccessToken cfg0 5 tampered0 = .error "Invalid access token" ∧
    verifyRefreshToken cfg0 5 (.malformed "garbage") = .error "Invalid refresh token" ∧
    verifyRefreshToken cfg0 5 tampered0 = .error "Invalid refresh token" ∧
    verifyAccessToken cfg0 1000000 expiredAccess0 = .error "Access token has expired" :=
  ⟨rfl, rfl, rfl, rfl, rfl⟩

/-- Claim C3 (amended). `verifyAccessToken` and `verifyRefreshToken` produce
exactly two distinguishable failure kinds: the expired error exactly when
the token is well-formed, signed with the manager's matching secret and
`now ≥ exp`; and a single invalid error covering everything else — bad
signature, wrong issuer or audience, and unparsable tokens alike. -/
theorem verifyToken_two_failure_kinds (cfg : JWTConfig) (now : Nat) (token : Token) :
    ((verifyAccessToken cfg now token = .error "Access token has expired") ↔
      (∃ p, token = .signed p cfg.accessTokenSecret ∧ p.exp ≤ now)) ∧
    (∀ e, verifyAccessToken cfg now token = .error e →
      e = "Access token has expired" ∨ e = "Invalid access token") ∧
    (∀ raw, verifyAccessToken cfg now (.malformed raw) = .error "Invalid access token") ∧
    ((verifyRefreshToken cfg now token = .error "Refresh token has expired") ↔
      (∃ p, token = .signed p cfg.refreshTokenSecret ∧ p.exp ≤ now)) ∧
    (∀ e, verifyRefreshToken cfg now token = .error e →
      e = "Refresh token has expired" ∨ e = "Invalid refresh token") ∧
    (∀ raw, verifyRefreshToken cfg now (.malformed raw) = .error "Invalid refresh token") := by
  refine ⟨?_, ?_, ?_, ?_, ?_, ?_⟩
  · cases token with
    | malformed raw => simp [verifyAccessToken, jwtVerify]
    | signed p s =>
      simp only [verifyAccessToken, jwtVerify]
      by_cases h1 : s = cfg.accessTokenSecret
      · subst h1
        by_cases h2 : p.exp ≤ now
        · simp [h2]
        · by_cases h3 : p.aud = "glyde-frontend" <;>
            by_cases h4 : p.iss = "glyde-backend" <;>
            simp [h2, h3, h4]
      · simp [h1]
  · intro e
    cases token with
    | malformed raw => simp [verifyAccessToken, jwtVerify]; intro h; simp [h]
    | signed p s =>
      simp only [verifyAccessToken, jwtVerify]
      split_ifs <;> simp <;> intro h <;> simp [h]
  · intro raw; simp [verifyAccessToken, jwtVerify]
  · cases token with
    | malformed raw => simp [verifyRefreshToken, jwtVerify]
    | signed p s =>
      simp only [verifyRefreshToken, jwtVerify]
      by_cases h1 : s = cfg.refreshTokenSecret
      · subst h1
        by_cases h2 : p.exp ≤ now
        · simp [h2]
        · by_cases h3 : p.aud = "glyde-frontend" <;>
            by_cases h4 : p.iss = "glyde-backend" <;>
            simp [h2, h3, h4]
      · simp [h1]
  · intro e
    cases token with
    | malformed raw => simp [verifyRefreshToken, jwtVerify]; intro h; simp [h]
    | signed p s =>
      simp only [verifyRefreshToken, jwtVerify]
      split_ifs <;> simp <;> intro h <;> simp [h]
  · intro raw; simp [verifyRefreshToken, jwtVerify]

/-- Claim C3 (amended), witness: an access token signed with the matching
secret whose `exp` equals the current time fails with the expired error. -/
theorem verifyToken_two_failure_kinds_witness :
    verifyAccessToken cfg0 1000000 expiredAccess0 = .error "Access token has expired" :=
  (verifyToken_two_failure_kinds cfg0 1000000 expiredAccess0).1.mpr
    ⟨{ userId := "u1", role := some "USER", iat := 0, exp := 1000000,
       iss := "glyde-backend", aud := "glyde-frontend" }, rfl, by decide⟩

/-- Claim C4 (confirmed). `refreshAccessToken` propagates the refresh
verification's error unchanged; an expired (correctly signed) refresh token
yields exactly the `'Refresh token has expired'` error; and on success the
new access token is built solely from the decoded claims and no other
source: its subject is `decoded.userId`, its role is `decoded.role` copied
behind the source's `if (decoded.role)` truthiness guard (a falsy — absent
or empty-string — role is omitted from the new payload), with the manager's
fixed issuer/audience and access expiry, signed with the access secret. -/
theorem refreshAccessToken_propagation (cfg : JWTConfig) (now : Nat) (token : Token) :
    (∀ e, verifyRefreshToken cfg now token = .error e →
        refreshAccessToken cfg now token = .error e) ∧
    (∀ p, token = .signed p cfg.refreshTokenSecret → p.exp ≤ now →
        refreshAccessToken cfg now token = .error "Refresh token has expired") ∧
    (∀ d, verifyRefreshToken cfg now token = .ok d →
        refreshAccessToken cfg now token =
          .ok (.signed { userId := d.userId,
                         role := if strFalsy d.role then none else d.role,
                         iat := now, exp := now + cfg.accessTokenExpiry,
                         iss := "glyde-backend", aud := "glyde-frontend" }
                cfg.accessTokenSecret)) := by
  refine ⟨?_, ?_, ?_⟩
  · intro e he; simp [refreshAccessToken, he]
  · intro p hp hexp
    subst hp
    simp [refreshAccessToken, verifyRefreshToken, jwtVerify, hexp]
  · intro d hd; simp [refreshAccessToken, hd, generateAccessToken, jwtSign]

/-- Claim C4, witness: refreshing with the expired refresh token
`expiredRefresh0` fails with the expired error, not the invalid one. -/
theorem refreshAccessToken_propagation_witness :
    refreshAccessToken cfg0 2592000 expiredRefresh0
      = .error "Refresh token has expired" :=
  (refreshAccessToken_propagation cfg0 2592000 expiredRefresh0).2.1
    { userId := "u1", role := some "USER", iat := 0, exp := 100,
      iss := "glyde-backend", aud := "glyde-frontend" } rfl (by decide)

/-- Claim C5 (confirmed). Verifying the access token of a freshly issued
pair under the same configuration, before its expiry, succeeds and returns
claims carrying exactly the `userId` and `role` passed to
`generateTokenPair`. -/
theorem generateTokenPair_roundTrip (cfg : JWTConfig) (userId : String)
    (role : Option String) (issuedAt now : Nat)
    (h : now < issuedAt + cfg.accessTokenExpiry) :
    verifyAccessToken cfg now (generateTokenPair cfg issuedAt userId role).accessToken
      = .ok { userId := userId, role := role, iat := issuedAt,
              exp := issuedAt + cfg.accessTokenExpiry,
              iss := "glyde-backend", aud := "glyde-frontend" } := by
  have hexp : ¬ (issuedAt + cfg.accessTokenExpiry ≤ now) := by omega
  simp [generateTokenPair, generateAccessToken, jwtSign, verifyAccessToken, jwtVerify, hexp]

/-- Claim C5, witness: a pair issued at time 0 for `u1`/`USER` verifies at
time 3600 with the same subject and role. -/
theorem generateTokenPair_roundTrip_witness :
    verifyAccessToken cfg0 3600 (generateTokenPair cfg0 0 "u1" (some "USER")).accessToken
      = .ok { userId := "u1", role := some "USER", iat := 0, exp := 604800,
              iss := "glyde-backend", aud := "glyde-frontend" } :=
  generateTokenPair_roundTrip cfg0 "u1" (some "USER") 0 3600 (by decide)

/-- Claim C6, counterexample. A present, unexpired challenge whose stored
code is the empty string is rejected even for an exactly-equal submitted
code (the JS falsiness guard `!this.otp.code`): the claim's "returns true
otherwise" fails at this input. -/
theorem isOTPValid_emptyCode_counterexample :
    uEmptyCode.otp = some { code := "", expiresAt := some 1000 } ∧
    ¬ (0 : Nat) > 1000 ∧
    ("" : String) = "" ∧
    isOTPValid uEmptyCode "" 0 = false := by
  refine ⟨rfl, by decide, rfl, rfl⟩

/-- Claim C6 (amended). `isOTPValid` fails closed — false when the challenge
is absent, when a stored sub-field is missing or the stored code is empty
(the JS falsiness guards), when `now > expiresAt` even on a matching code,
and when the submitted code is not exactly string-equal to the stored one —
and returns true precisely when a fully populated, nonempty-code, unexpired
challenge matches the submitted string; as embedded it is a pure function of
the document, the code and the clock, mutating nothing. -/
theorem isOTPValid_fails_closed (u : UserDoc) (code : String) (now : Nat) :
    (isOTPValid u code now = true ↔
      ∃ c e, u.otp = some { code := c, expiresAt := some e } ∧ c ≠ "" ∧
        ¬ e < now ∧ c = code) ∧
    (u.otp = none → isOTPValid u code now = false) ∧
    (∀ c e, u.otp = some { code := c, expiresAt := some e } → e < now →
      isOTPValid u code now = false) ∧
    (∀ o, u.otp = some o → o.code ≠ code → isOTPValid u code now = false) := by
  refine ⟨?_, ?_, ?_, ?_⟩
  · cases hu : u.otp with
    | none => simp [isOTPValid, hu]
    | some o =>
      obtain ⟨c, e?⟩ := o
      cases e? with
      | none => simp [isOTPValid, hu]
      | some e =>
        by_cases hc : c = ""
        · subst hc; simp [isOTPValid, hu]
        · by_cases he : e < now
          · simp [isOTPValid, hu, hc, he]
          · by_cases hcode : c = code
            · subst hcode
              simp only [isOTPValid, hu, hc, he]
              simp [hc]
              exact ⟨c, e, ⟨rfl, rfl⟩, hc, by omega, rfl⟩
            · simp [isOTPValid, hu, hc, he, hcode]
  · intro h; simp [isOTPValid, h]
  · intro c e h hlt
    by_cases hc : c = "" <;> simp [isOTPValid, h, hc, hlt]
  · intro o h hne
    obtain ⟨c, e?⟩ := o
    simp only at hne
    by_cases hc : c = ""
    · simp [isOTPValid, h, hc]
    · cases e? with
      | none => simp [isOTPValid, h, hc]
      | some e =>
        by_cases he : e < now <;> simp [isOTPValid, h, hc, he, hne]

/-- Claim C6 (amended), witness: the matching code `123456` is rejected once
`now` (2000) has passed `expiresAt` (1000). -/
theorem isOTPValid_fails_closed_witness :
    isOTPValid { u0 with otp := some { code := "123456", expiresAt := some 1000 } }
        "123456" 2000 = false :=
  (isOTPValid_fails_closed _ "123456" 2000).2.2.1 "123456" 1000 rfl (by decide)

/-- Claim C7 (confirmed). Every generated OTP code is the decimal numeral of
a number in 100000–999999 — six digits exactly (`Nat.digits` length 6, and
the numeral string is at most six characters) — and its `expiresAt` is the
generation time plus the fixed ten-minute window (600000 ms). -/
theorem generateOTP_shape (now : Nat) (rand : Fin 900000) :
    ∃ n : Nat, 100000 ≤ n ∧ n ≤ 999999 ∧
      (generateOTP now rand).code = Nat.repr n ∧
      (Nat.digits 10 n).length = 6 ∧
      (Nat.repr n).length ≤ 6 ∧
      (generateOTP now rand).expiresAt = some (now + 10 * 60 * 1000) := by
  have hlt := rand.isLt
  refine ⟨100000 + rand.val, by omega, by omega, rfl, ?_, ?_, rfl⟩
  · rw [Nat.digits_len 10 _ (by norm_num) (by omega)]
    have h1 : 10 ^ 5 ≤ 100000 + rand.val := by norm_num
    have h2 : 100000 + rand.val < 10 ^ (5 + 1) := by norm_num; omega
    rw [Nat.log_eq_of_pow_le_of_lt_pow h1 h2]
  · exact Nat.repr_length _ 6 (by norm_num) (by norm_num; omega)

/-- Claim C8 (confirmed). When the pending-state lookup finds an account and
the submitted OTP fails validation (wrong or expired), the verify flow
answers the OTP-invalid error and returns the store untouched: the account
keeps its pending status and its stored challenge, so later attempts remain
possible. -/
theorem verifyEmail_invalidOTP_preserves_state (cfg : JWTConfig)
    (welcomeSent : Bool) (now : Nat) (store : List UserDoc) (email code : String)
    (u : UserDoc) (hfind : findPendingByEmail store email = some u)
    (hotp : isOTPValid u code now = false) :
    verifyEmail cfg welcomeSent now store email code = (.err "Invalid OTP", store) := by
  simp [verifyEmail, hfind, hotp]

/-- Claim C8, witness: submitting the wrong code `999999` for `u0` answers
the OTP-invalid error and leaves the one-account store identical. -/
theorem verifyEmail_invalidOTP_preserves_state_witness :
    verifyEmail cfg0 true 500 [u0] "a@x.com" "999999" = (.err "Invalid OTP", [u0]) :=
  verifyEmail_invalidOTP_preserves_state cfg0 true 500 [u0] "a@x.com" "999999" u0
    (by decide) (by decide)

/-- Claim C9 (confirmed). `comparePassword` on an account without a stored
credential hash returns false for every candidate plaintext and every
behaviour of the bcrypt library — the oracle is not even consulted, so
nothing can throw; absence of a secret compares as non-matching. -/
theorem comparePassword_absent_hash_false
    (bcryptCompare : String → String → Bool) (u : UserDoc)
    (candidatePassword : String) (h : u.password = none) :
    comparePassword bcryptCompare u candidatePassword = false := by
  simp [comparePassword, h]

/-- Claim C9, witness: even with an oracle answering true on every input,
the compare against an account with no stored hash is false. -/
theorem comparePassword_absent_hash_false_witness :
    comparePassword (fun _ _ => true) { u0 with password := none } "any-input" = false :=
  comparePassword_absent_hash_false _ _ _ rfl

/-- Claim C10 (confirmed). The serialized form of an account does not depend
on its `password` or `otp` fields: any two documents differing only there
serialize identically (and the codomain `PublicUser` carries no such fields,
so the public representation contains neither secret). -/
theorem toJSON_independent_of_secrets (u : UserDoc) (p1 p2 : Option String)
    (o1 o2 : Option OtpChallenge) :
    toJSON { u with password := p1, otp := o1 }
      = toJSON { u with password := p2, otp := o2 } := rfl

end Glyde
